import Mathlib

/-!
Shallow embedding of `src/models/networks.py` (Munit_Ligand).

Tensors are modelled as 5-dimensional arrays (batch, channel, depth, height,
width) of real numbers: a shape record together with a total data function;
entries outside the shape are irrelevant junk.  Every `forward` method that can
raise a runtime error in PyTorch (channel mismatch, kernel larger than the
padded input, unknown padding mode, zero stride) is embedded as a function into
`Option`, returning `none` exactly where the original code raises.  The
unconditional `print` in `MultiDiscriminator.forward` is embedded as an output
trace returned next to the list of score maps.
-/

set_option maxRecDepth 100000
set_option linter.unusedVariables false

noncomputable section

structure Tensor5 where
  B : ℕ
  C : ℕ
  D : ℕ
  H : ℕ
  W : ℕ
  data : ℕ → ℕ → ℕ → ℕ → ℕ → ℝ

abbrev Shape5 : Type := ℕ × ℕ × ℕ × ℕ × ℕ

def Tensor5.toShape (t : Tensor5) : Shape5 := (t.B, t.C, t.D, t.H, t.W)

def tensorDefault : Tensor5 := ⟨0, 0, 0, 0, 0, fun _ _ _ _ _ => 0⟩

/-- A constant-valued tensor of the given shape (used for concrete inputs). -/
def constTensor (B C D H W : ℕ) (v : ℝ) : Tensor5 :=
  ⟨B, C, D, H, W, fun _ _ _ _ _ => v⟩

/-- Elementwise map over a tensor (shape unchanged). -/
def tmap (f : ℝ → ℝ) (t : Tensor5) : Tensor5 :=
  { t with data := fun b c d h w => f (t.data b c d h w) }

/-- Elementwise tensor addition, `x + y` in the source; defined when the two
shapes agree (the only situation the repository exercises). -/
def tadd (x y : Tensor5) : Option Tensor5 :=
  if x.toShape = y.toShape then
    some { x with data := fun b c d h w => x.data b c d h w + y.data b c d h w }
  else none

/-! ### `F.pad(x, [p]*6, pad_type)` : symmetric padding of the three spatial axes -/

/-- Replication padding: spatial indices are clamped to the valid range
(`min (d - p) (D - 1)` with truncated subtraction clamps both ends). -/
def padReplicate (p : ℕ) (x : Tensor5) : Tensor5 :=
  { B := x.B, C := x.C, D := x.D + 2 * p, H := x.H + 2 * p, W := x.W + 2 * p,
    data := fun b c d h w =>
      x.data b c (min (d - p) (x.D - 1)) (min (h - p) (x.H - 1))
        (min (w - p) (x.W - 1)) }

/-- Index arithmetic of reflection padding along one axis of length `n`. -/
def reflectIdx (p n d : ℕ) : ℕ :=
  if d < p then p - d else if d - p < n then d - p else 2 * n - 2 - (d - p)

def padReflect (p : ℕ) (x : Tensor5) : Tensor5 :=
  { B := x.B, C := x.C, D := x.D + 2 * p, H := x.H + 2 * p, W := x.W + 2 * p,
    data := fun b c d h w =>
      x.data b c (reflectIdx p x.D d) (reflectIdx p x.H h) (reflectIdx p x.W w) }

def padCircular (p : ℕ) (x : Tensor5) : Tensor5 :=
  { B := x.B, C := x.C, D := x.D + 2 * p, H := x.H + 2 * p, W := x.W + 2 * p,
    data := fun b c d h w =>
      x.data b c ((d + x.D - p) % x.D) ((h + x.H - p) % x.H)
        ((w + x.W - p) % x.W) }

/-- Zero ("constant") padding; also models the implicit zero padding of a raw
`nn.Conv3d(..., padding=p)`. -/
def padZero (p : ℕ) (x : Tensor5) : Tensor5 :=
  { B := x.B, C := x.C, D := x.D + 2 * p, H := x.H + 2 * p, W := x.W + 2 * p,
    data := fun b c d h w =>
      if p ≤ d ∧ d < x.D + p ∧ p ≤ h ∧ h < x.H + p ∧ p ≤ w ∧ w < x.W + p then
        x.data b c (d - p) (h - p) (w - p)
      else 0 }

/-- `F.pad(x, [p]*6, pad_type)`: dispatch on the mode string; an unrecognized
mode raises (`none`), and replicate / reflect / circular have the input-size
requirements PyTorch enforces. -/
def pad3d (pad_type : String) (p : ℕ) (x : Tensor5) : Option Tensor5 :=
  if pad_type = "replicate" then
    if 1 ≤ x.D ∧ 1 ≤ x.H ∧ 1 ≤ x.W then some (padReplicate p x) else none
  else if pad_type = "reflect" then
    if p < x.D ∧ p < x.H ∧ p < x.W then some (padReflect p x) else none
  else if pad_type = "circular" then
    if p ≤ x.D ∧ p ≤ x.H ∧ p ≤ x.W then some (padCircular p x) else none
  else if pad_type = "constant" then some (padZero p x)
  else none

/-! ### `nn.Conv3d` (no internal padding; the blocks pad explicitly first) -/

/-- A learned 3D convolution: kernel `k`, stride `s`, no internal padding.
Fails (as PyTorch raises) when the input channel count does not match, when the
stride is zero, or when the kernel exceeds an input spatial extent. -/
def conv3d (in_channels out_channels k s : ℕ) (weight : ℕ → ℕ → ℕ → ℕ → ℕ → ℝ)
    (bias : ℕ → ℝ) (x : Tensor5) : Option Tensor5 :=
  if x.C = in_channels ∧ 1 ≤ s ∧ k ≤ x.D ∧ k ≤ x.H ∧ k ≤ x.W then
    some { B := x.B, C := out_channels,
           D := (x.D - k) / s + 1, H := (x.H - k) / s + 1, W := (x.W - k) / s + 1,
           data := fun b o d h w => bias o +
             ∑ c ∈ Finset.range in_channels, ∑ i ∈ Finset.range k,
               ∑ j ∈ Finset.range k, ∑ l ∈ Finset.range k,
                 weight o c i j l * x.data b c (d * s + i) (h * s + j) (w * s + l) }
  else none

/-! ### Normalization layers -/

def normEps : ℝ := 1 / 100000

def spatialMean (t : Tensor5) (b c : ℕ) : ℝ :=
  (∑ d ∈ Finset.range t.D, ∑ h ∈ Finset.range t.H, ∑ w ∈ Finset.range t.W,
    t.data b c d h w) / (t.D * t.H * t.W)

def spatialVar (t : Tensor5) (b c : ℕ) : ℝ :=
  (∑ d ∈ Finset.range t.D, ∑ h ∈ Finset.range t.H, ∑ w ∈ Finset.range t.W,
    (t.data b c d h w - spatialMean t b c) ^ 2) / (t.D * t.H * t.W)

/-- `nn.InstanceNorm3d` (default: no affine parameters): per-sample,
per-channel statistics over the spatial axes. -/
def instanceNorm3d (t : Tensor5) : Tensor5 :=
  { t with data := fun b c d h w =>
      (t.data b c d h w - spatialMean t b c) /
        Real.sqrt (spatialVar t b c + normEps) }

def batchMean (t : Tensor5) (c : ℕ) : ℝ :=
  (∑ b ∈ Finset.range t.B, ∑ d ∈ Finset.range t.D, ∑ h ∈ Finset.range t.H,
    ∑ w ∈ Finset.range t.W, t.data b c d h w) / (t.B * t.D * t.H * t.W)

def batchVar (t : Tensor5) (c : ℕ) : ℝ :=
  (∑ b ∈ Finset.range t.B, ∑ d ∈ Finset.range t.D, ∑ h ∈ Finset.range t.H,
    ∑ w ∈ Finset.range t.W, (t.data b c d h w - batchMean t c) ^ 2) /
    (t.B * t.D * t.H * t.W)

/-- `nn.BatchNorm3d` in training mode: per-channel statistics over batch and
spatial axes, with learned affine parameters. -/
def batchNorm3d (gamma beta : ℕ → ℝ) (t : Tensor5) : Tensor5 :=
  { t with data := fun b c d h w =>
      gamma c * ((t.data b c d h w - batchMean t c) /
        Real.sqrt (batchVar t c + normEps)) + beta c }

/-! ### Activations -/

inductive ActKind where
  | relu
  | lrelu
  | prelu
  | selu
  | tanh
  deriving DecidableEq

inductive NormKind where
  | bn
  | inst
  deriving DecidableEq

def lreluSlope : ℝ := 0.2

def seluAlpha : ℝ := 1.6732632423543772

def seluScale : ℝ := 1.0507009873554805

/-- Elementwise activation; `a` is the learned `nn.PReLU()` parameter. -/
def applyAct (a : ℝ) : ActKind → Tensor5 → Tensor5
  | ActKind.relu, t => tmap (fun v => max 0 v) t
  | ActKind.lrelu, t => tmap (fun v => max 0 v + lreluSlope * min 0 v) t
  | ActKind.prelu, t => tmap (fun v => max 0 v + a * min 0 v) t
  | ActKind.selu, t =>
      tmap (fun v => seluScale * (max 0 v + min 0 (seluAlpha * (Real.exp v - 1)))) t
  | ActKind.tanh, t => tmap Real.tanh t

/-! ### `Conv_3d_Block` -/

/-- Learned parameters of one `Conv_3d_Block` (convolution weight and bias, the
`nn.PReLU` parameter, and the `nn.BatchNorm3d` affine parameters; the latter
two are only read when the corresponding branch was selected). -/
structure BlockParams where
  weight : ℕ → ℕ → ℕ → ℕ → ℕ → ℝ
  bias : ℕ → ℝ
  prelu_a : ℝ
  bn_weight : ℕ → ℝ
  bn_bias : ℕ → ℝ

def zeroBP : BlockParams :=
  ⟨fun _ _ _ _ _ => 0, fun _ => 0, 0, fun _ => 0, fun _ => 0⟩

/-- The state `Conv_3d_Block.__init__` builds: configuration plus the resolved
(optional) activation and normalization members. -/
structure Conv3dBlock where
  input_channels : ℕ
  output_channels : ℕ
  k_size : ℕ
  s : ℕ
  padding : ℕ
  pad_type : String
  activation : Option ActKind
  norm : Option NormKind

/-- `Conv_3d_Block.__init__`: the `if/elif/.../else None` chains resolving the
activation and normalization strings.  Construction never fails; unmatched
strings fall through to `None`.  (In the source, `p`, `norm`, `activation` and
`pad_type` default to `3`, `"none"`, `"relu"`, `"replicate"`; call sites below
pass those defaults explicitly.) -/
def mkConv3dBlock (input_channels output_channels k_size s p : ℕ)
    (norm activation pad_type : String) : Conv3dBlock :=
  { input_channels := input_channels, output_channels := output_channels,
    k_size := k_size, s := s, padding := p, pad_type := pad_type,
    activation :=
      if activation = "relu" then some ActKind.relu
      else if activation = "lrelu" then some ActKind.lrelu
      else if activation = "prelu" then some ActKind.prelu
      else if activation = "selu" then some ActKind.selu
      else if activation = "tanh" then some ActKind.tanh
      else none,
    norm :=
      if norm = "bn" then some NormKind.bn
      else if norm = "in" then some NormKind.inst
      else none }

/-- `if self.norm: x = self.norm(x)`. -/
def applyNormOpt (P : BlockParams) : Option NormKind → Tensor5 → Tensor5
  | some NormKind.bn, t => batchNorm3d P.bn_weight P.bn_bias t
  | some NormKind.inst, t => instanceNorm3d t
  | none, t => t

/-- `if self.activation: x = self.activation(x)`. -/
def applyActOpt (P : BlockParams) : Option ActKind → Tensor5 → Tensor5
  | some a, t => applyAct P.prelu_a a t
  | none, t => t

/-- `Conv_3d_Block.forward`: pad, convolve, optionally normalize, optionally
activate. -/
def convBlockForward (blk : Conv3dBlock) (P : BlockParams) (x : Tensor5) :
    Option Tensor5 := do
  let xp ← pad3d blk.pad_type blk.padding x
  let xc ← conv3d blk.input_channels blk.output_channels blk.k_size blk.s
    P.weight P.bias xp
  pure (applyActOpt P blk.activation (applyNormOpt P blk.norm xc))

/-! ### `ResidualBlock` and `ResidualBlocks` -/

/-- Parameters of one `ResidualBlock` (its two `Conv_3d_Block`s). -/
structure ResParams where
  p1 : BlockParams
  p2 : BlockParams

def zeroRP : ResParams := ⟨zeroBP, zeroBP⟩

/-- `ResidualBlock.forward`: `x + model(x)` with `model` the two stacked
blocks, the first with the configured activation, the second with
`activation="none"`. -/
def residualBlockForward (channels : ℕ) (norm activation pad_type : String)
    (P : ResParams) (x : Tensor5) : Option Tensor5 := do
  let y ← convBlockForward
    (mkConv3dBlock channels channels 3 1 1 norm activation pad_type) P.p1 x
  let z ← convBlockForward
    (mkConv3dBlock channels channels 3 1 1 norm "none" pad_type) P.p2 y
  tadd x z

/-- `ResidualBlocks.forward`: `n_blocks` sequential residual blocks, each with
its own parameters. -/
def residualBlocksForward (channels : ℕ) (norm activation pad_type : String) :
    ℕ → (ℕ → ResParams) → Tensor5 → Option Tensor5
  | 0, _, x => some x
  | n + 1, Ps, x => do
      let y ← residualBlockForward channels norm activation pad_type (Ps 0) x
      residualBlocksForward channels norm activation pad_type n
        (fun i => Ps (i + 1)) y

/-! ### Shared downsampling loop

`StyleEncoder`, `ContentEncoder` and the discriminator towers all contain a
loop of `Conv_3d_Block(dim, 2*dim, 4, 2, 1, norm, activ, pad_type)` layers that
double the channel count; only the strings differ between the three uses. -/

def downsampleBlocks (norm activ pad_type : String) :
    ℕ → ℕ → (ℕ → BlockParams) → Tensor5 → Option Tensor5
  | _, 0, _, x => some x
  | dim, n + 1, Ps, x => do
      let y ← convBlockForward
        (mkConv3dBlock dim (2 * dim) 4 2 1 norm activ pad_type) (Ps 0) x
      downsampleBlocks norm activ pad_type (2 * dim) n (fun i => Ps (i + 1)) y

/-! ### `StyleEncoder` -/

/-- `StyleEncoder`'s fixed-channel tail loop:
`(n_downsample - 2)` copies of `Conv_3d_Block(dim, dim, 4, 2, 1)` (all string
arguments left at their defaults). -/
def keepBlocks (dim : ℕ) :
    ℕ → (ℕ → BlockParams) → Tensor5 → Option Tensor5
  | 0, _, x => some x
  | n + 1, Ps, x => do
      let y ← convBlockForward
        (mkConv3dBlock dim dim 4 2 1 "none" "relu" "replicate") (Ps 0) x
      keepBlocks dim n (fun i => Ps (i + 1)) y

/-- `nn.AdaptiveAvgPool3d(1)`: collapse the spatial axes to `1` by averaging. -/
def adaptiveAvgPool1 (t : Tensor5) : Tensor5 :=
  { B := t.B, C := t.C, D := 1, H := 1, W := 1,
    data := fun b c _ _ _ => spatialMean t b c }

structure StyleEncoderParams where
  w0 : BlockParams
  wdouble : ℕ → BlockParams
  wkeep : ℕ → BlockParams
  wlast : BlockParams

def zeroSEP : StyleEncoderParams := ⟨zeroBP, fun _ => zeroBP, fun _ => zeroBP, zeroBP⟩

/-- `StyleEncoder.forward`: stem block (kernel 7, stride 1, defaults), two
doubling downsample blocks, `n_downsample - 2` fixed-channel downsample blocks,
adaptive average pooling to `1`, and a raw `nn.Conv3d(bottom_dim, style_dim, 1,
1, 0)` projection.  After the two doubling blocks the running channel count is
`4 * bottom_dim`. -/
def styleEncoderForward (in_channels n_downsample style_dim bottom_dim : ℕ)
    (P : StyleEncoderParams) (x : Tensor5) : Option Tensor5 := do
  let x1 ← convBlockForward
    (mkConv3dBlock in_channels bottom_dim 7 1 3 "none" "relu" "replicate") P.w0 x
  let x2 ← downsampleBlocks "none" "relu" "replicate" bottom_dim 2 P.wdouble x1
  let x3 ← keepBlocks (4 * bottom_dim) (n_downsample - 2) P.wkeep x2
  conv3d (4 * bottom_dim) style_dim 1 1 P.wlast.weight P.wlast.bias
    (adaptiveAvgPool1 x3)

/-! ### `ContentEncoder` -/

structure ContentEncoderParams where
  w0 : BlockParams
  wdown : ℕ → BlockParams
  wres : ℕ → ResParams

def zeroCEP : ContentEncoderParams := ⟨zeroBP, fun _ => zeroBP, fun _ => zeroRP⟩

/-- `ContentEncoder.forward`: stem block (kernel 7, stride 1, instance norm),
`n_downsample` doubling downsample blocks (instance norm), then
`ResidualBlocks(n_res, bottom_dim * 2^n_downsample)` with its default
`norm="in"`. -/
def contentEncoderForward (input_channels n_downsample bottom_dim n_res : ℕ)
    (P : ContentEncoderParams) (x : Tensor5) : Option Tensor5 := do
  let x1 ← convBlockForward
    (mkConv3dBlock input_channels bottom_dim 7 1 3 "in" "relu" "replicate") P.w0 x
  let x2 ← downsampleBlocks "in" "relu" "replicate" bottom_dim n_downsample
    P.wdown x1
  residualBlocksForward (bottom_dim * 2 ^ n_downsample) "in" "relu" "replicate"
    n_res P.wres x2

/-! ### `MultiDiscriminator` -/

/-- The entries of the `params` dict read by `MultiDiscriminator.__init__`. -/
structure MDParams where
  n_layer : ℕ
  bottom_dim : ℕ
  norm : String
  activ : String
  num_scales : ℕ
  pad_type : String

/-- Learned parameters of one discriminator tower built by
`discriminator_block`. -/
structure TowerParams where
  w0 : BlockParams
  wmid : ℕ → BlockParams
  wlast : BlockParams

def zeroTP : TowerParams := ⟨zeroBP, fun _ => zeroBP, zeroBP⟩

/-- One tower from `discriminator_block`: a stride-2 block to `bottom_dim`
channels (no norm), `n_layer - 1` doubling stride-2 blocks with the configured
norm, and a raw `nn.Conv3d(channels, 1, 3, padding=1)` score projection (zero
padding 1, stride 1). -/
def towerForward (in_channels : ℕ) (cfg : MDParams) (T : TowerParams)
    (x : Tensor5) : Option Tensor5 := do
  let y ← convBlockForward
    (mkConv3dBlock in_channels cfg.bottom_dim 4 2 1 "none" cfg.activ cfg.pad_type)
    T.w0 x
  let z ← downsampleBlocks cfg.norm cfg.activ cfg.pad_type cfg.bottom_dim
    (cfg.n_layer - 1) T.wmid y
  conv3d (cfg.bottom_dim * 2 ^ (cfg.n_layer - 1)) 1 3 1 T.wlast.weight
    T.wlast.bias (padZero 1 z)

/-- The window of input positions covered at output position `d` by
`nn.AvgPool3d(kernel_size=3, stride=2, padding=1)` along an axis of length `n`
(input index `2*d + i - 1` must lie inside `[0, n)`). -/
def poolWindow (d n : ℕ) : Finset ℕ :=
  (Finset.range 3).filter fun i => 1 ≤ 2 * d + i ∧ 2 * d + i ≤ n

/-- `self.downsample = nn.AvgPool3d(kernel_size=3, stride=2, padding=1,
count_include_pad=False)`: averages over the in-bounds window cells only. -/
def avgPoolDownsample (t : Tensor5) : Tensor5 :=
  { B := t.B, C := t.C,
    D := (t.D + 2 - 3) / 2 + 1, H := (t.H + 2 - 3) / 2 + 1,
    W := (t.W + 2 - 3) / 2 + 1,
    data := fun b c d h w =>
      (∑ i ∈ poolWindow d t.D, ∑ j ∈ poolWindow h t.H, ∑ l ∈ poolWindow w t.W,
        t.data b c (2 * d + i - 1) (2 * h + j - 1) (2 * w + l - 1)) /
      (((poolWindow d t.D).card * (poolWindow h t.H).card *
        (poolWindow w t.W).card : ℕ)) }

/-- `MultiDiscriminator.__init__`: `num_scales` independently parameterized
towers, in order. -/
def mkDiscriminatorModels (cfg : MDParams) (Ws : ℕ → TowerParams) :
    List TowerParams :=
  (List.range cfg.num_scales).map Ws

/-- `MultiDiscriminator.forward`: apply each tower to the running input,
`print` the pair (output shape, current input shape), then average-pool the
running input before the next scale.  The printed lines are returned as a
trace next to the outputs. -/
def multiForward (in_channels : ℕ) (cfg : MDParams) :
    List TowerParams → Tensor5 → Option (List Tensor5 × List (Shape5 × Shape5))
  | [], _ => some ([], [])
  | T :: Ts, x => do
      let o ← towerForward in_channels cfg T x
      let rest ← multiForward in_channels cfg Ts (avgPoolDownsample x)
      pure (o :: rest.1, (o.toShape, x.toShape) :: rest.2)

/-- Mean over all entries of a tensor (`torch.mean`). -/
def tmean (t : Tensor5) : ℝ :=
  (∑ b ∈ Finset.range t.B, ∑ c ∈ Finset.range t.C, ∑ d ∈ Finset.range t.D,
    ∑ h ∈ Finset.range t.H, ∑ w ∈ Finset.range t.W, t.data b c d h w) /
  ((t.B * t.C * t.D * t.H * t.W : ℕ))

/-- `MultiDiscriminator.compute_loss`:
`sum([torch.mean((out - gt) ** 2) for out in self.forward(x)])`. -/
def computeLoss (in_channels : ℕ) (cfg : MDParams) (Ts : List TowerParams)
    (x : Tensor5) (gt : ℝ) : Option ℝ :=
  (multiForward in_channels cfg Ts x).map fun r =>
    (r.1.map fun out => tmean (tmap (fun v => (v - gt) ^ 2) out)).sum

/-! ### `Decoder` -/

structure DecoderParams where
  wres : ℕ → ResParams
  wup : ℕ → BlockParams
  wlast : BlockParams

def zeroDP : DecoderParams := ⟨fun _ => zeroRP, fun _ => zeroBP, zeroBP⟩

/-- `nn.Upsample(scale_factor=2)` (nearest-neighbour). -/
def upsampleNearest2 (t : Tensor5) : Tensor5 :=
  { B := t.B, C := t.C, D := 2 * t.D, H := 2 * t.H, W := 2 * t.W,
    data := fun b c d h w => t.data b c (d / 2) (h / 2) (w / 2) }

/-- The `Decoder`'s upsampling loop and terminal block, threading the running
`channels` variable exactly as the source halves it: `n_upsample` stages of
`nn.Upsample(2)` followed by `Conv_3d_Block(channels, channels//2, 5, 1, 2,
norm="ln")`, then the final `Conv_3d_Block(channels, out_channels, 7, 1,
activation="tanh")` (defaults: padding 3, no norm). -/
def decoderUpAndOut (out_channels : ℕ) :
    ℕ → ℕ → (ℕ → BlockParams) → BlockParams → Tensor5 → Option Tensor5
  | ch, 0, _, wlast, x =>
      convBlockForward
        (mkConv3dBlock ch out_channels 7 1 3 "none" "tanh" "replicate") wlast x
  | ch, n + 1, Ps, wlast, x => do
      let y ← convBlockForward
        (mkConv3dBlock ch (ch / 2) 5 1 2 "ln" "relu" "replicate") (Ps 0)
        (upsampleNearest2 x)
      decoderUpAndOut out_channels (ch / 2) n (fun i => Ps (i + 1)) wlast y

/-- `Decoder.forward`.  Note the source computes
`channels = bottom_dim*(1<<n_upsample)` but builds
`ResidualBlocks(n_res, bottom_dim, norm="adain")` — the residual stack runs at
`bottom_dim` channels while the upsampling path starts at `channels`. -/
def decoderForward (bottom_dim n_res n_upsample style_dim out_channels : ℕ)
    (P : DecoderParams) (x : Tensor5) : Option Tensor5 := do
  let y ← residualBlocksForward bottom_dim "adain" "relu" "replicate" n_res
    P.wres x
  decoderUpAndOut out_channels (bottom_dim * 2 ^ n_upsample) n_upsample P.wup
    P.wlast y

/-! ### Concrete configurations and inputs used by witnesses -/

/-- The `params` dict of the `__main__` block: `n_layer=4`, `activ="lrelu"`,
`num_scales=1`, `pad_type="replicate"`, `norm="in"`, `bottom_dim=32`. -/
def mdCfg48 : MDParams := ⟨4, 32, "in", "lrelu", 1, "replicate"⟩

/-- The `(1, 14, 48, 48, 48)` test input of the `__main__` block. -/
def x48 : Tensor5 := constTensor 1 14 48 48 48 0

/-! ## Shape lemmas for the primitives -/

lemma toShape_ext {s t : Tensor5} :
    s.toShape = t.toShape ↔
      s.B = t.B ∧ s.C = t.C ∧ s.D = t.D ∧ s.H = t.H ∧ s.W = t.W := by
  simp [Tensor5.toShape, Prod.ext_iff, and_assoc]

lemma pad3d_some_shape {m : String} {p : ℕ} {x y : Tensor5}
    (h : pad3d m p x = some y) :
    y.B = x.B ∧ y.C = x.C ∧ y.D = x.D + 2 * p ∧ y.H = x.H + 2 * p ∧
      y.W = x.W + 2 * p := by
  unfold pad3d at h
  split_ifs at h <;>
    first
      | exact Option.noConfusion h
      | (injection h with h2; subst h2; exact ⟨rfl, rfl, rfl, rfl, rfl⟩)

lemma conv3d_some {ic oc k s : ℕ} {w : ℕ → ℕ → ℕ → ℕ → ℕ → ℝ} {bs : ℕ → ℝ}
    {x y : Tensor5} (h : conv3d ic oc k s w bs x = some y) :
    x.C = ic ∧ 1 ≤ s ∧ k ≤ x.D ∧ k ≤ x.H ∧ k ≤ x.W ∧
      y.B = x.B ∧ y.C = oc ∧ y.D = (x.D - k) / s + 1 ∧
      y.H = (x.H - k) / s + 1 ∧ y.W = (x.W - k) / s + 1 := by
  unfold conv3d at h
  by_cases hc : x.C = ic ∧ 1 ≤ s ∧ k ≤ x.D ∧ k ≤ x.H ∧ k ≤ x.W
  · rw [if_pos hc] at h
    injection h with h2
    subst h2
    exact ⟨hc.1, hc.2.1, hc.2.2.1, hc.2.2.2.1, hc.2.2.2.2, rfl, rfl, rfl, rfl, rfl⟩
  · rw [if_neg hc] at h
    exact Option.noConfusion h

lemma applyNormOpt_toShape (P : BlockParams) (o : Option NormKind) (t : Tensor5) :
    (applyNormOpt P o t).toShape = t.toShape := by
  cases o with
  | none => rfl
  | some nk => cases nk <;> rfl

lemma applyActOpt_toShape (P : BlockParams) (o : Option ActKind) (t : Tensor5) :
    (applyActOpt P o t).toShape = t.toShape := by
  cases o with
  | none => rfl
  | some ak => cases ak <;> rfl

/-- Anatomy of a successful `Conv_3d_Block.forward`: the padded tensor grows by
`padding` on both sides of each spatial axis, and the result follows the
convolution shape arithmetic on the padded sizes. -/
lemma convBlock_shape_spec {blk : Conv3dBlock} {P : BlockParams} {x t : Tensor5}
    (h : convBlockForward blk P x = some t) :
    (∃ xp, pad3d blk.pad_type blk.padding x = some xp ∧
        xp.D = x.D + 2 * blk.padding ∧ xp.H = x.H + 2 * blk.padding ∧
        xp.W = x.W + 2 * blk.padding) ∧
      blk.k_size ≤ x.D + 2 * blk.padding ∧ 1 ≤ blk.s ∧
      t.B = x.B ∧ t.C = blk.output_channels ∧
      t.D = (x.D + 2 * blk.padding - blk.k_size) / blk.s + 1 ∧
      t.H = (x.H + 2 * blk.padding - blk.k_size) / blk.s + 1 ∧
      t.W = (x.W + 2 * blk.padding - blk.k_size) / blk.s + 1 := by
  unfold convBlockForward at h
  cases hp : pad3d blk.pad_type blk.padding x with
  | none => rw [hp] at h; exact Option.noConfusion h
  | some xp =>
      rw [hp] at h
      have h2 : (conv3d blk.input_channels blk.output_channels blk.k_size blk.s
          P.weight P.bias xp).bind
            (fun xc => pure (applyActOpt P blk.activation (applyNormOpt P blk.norm xc))) =
          some t := h
      cases hcv : conv3d blk.input_channels blk.output_channels blk.k_size blk.s
          P.weight P.bias xp with
      | none => rw [hcv] at h2; exact Option.noConfusion h2
      | some xc =>
          rw [hcv] at h2
          have h3 : applyActOpt P blk.activation (applyNormOpt P blk.norm xc) = t := by
            injection h2
          obtain ⟨hpB, hpC, hpD, hpH, hpW⟩ := pad3d_some_shape hp
          obtain ⟨_, hs, hkD, _, _, hcB, hcC, hcD, hcH, hcW⟩ := conv3d_some hcv
          have hts : t.toShape = xc.toShape := by
            rw [← h3, applyActOpt_toShape, applyNormOpt_toShape]
          obtain ⟨htB, htC, htD, htH, htW⟩ := toShape_ext.mp hts
          refine ⟨⟨xp, rfl, hpD, hpH, hpW⟩, ?_, hs, ?_, ?_, ?_, ?_, ?_⟩
          · rw [← hpD]; exact hkD
          · rw [htB, hcB, hpB]
          · rw [htC, hcC]
          · rw [htD, hcD, hpD]
          · rw [htH, hcH, hpH]
          · rw [htW, hcW, hpW]

lemma pad3d_replicate_some {p : ℕ} {x : Tensor5} (hd : 1 ≤ x.D) (hh : 1 ≤ x.H)
    (hw : 1 ≤ x.W) : pad3d "replicate" p x = some (padReplicate p x) := by
  have h0 : pad3d "replicate" p x =
      if 1 ≤ x.D ∧ 1 ≤ x.H ∧ 1 ≤ x.W then some (padReplicate p x) else none := rfl
  rw [h0, if_pos ⟨hd, hh, hw⟩]

lemma conv3d_some_of {ic oc k s : ℕ} {w : ℕ → ℕ → ℕ → ℕ → ℕ → ℝ} {bs : ℕ → ℝ}
    {x : Tensor5} (hC : x.C = ic) (hs : 1 ≤ s) (hD : k ≤ x.D) (hH : k ≤ x.H)
    (hW : k ≤ x.W) : ∃ y, conv3d ic oc k s w bs x = some y := by
  unfold conv3d
  rw [if_pos ⟨hC, hs, hD, hH, hW⟩]
  exact ⟨_, rfl⟩

/-! ## Claim C5 -/

/-- Claim C5: for every configuration on which `Conv_3d_Block.forward`
succeeds, the input is first padded symmetrically by `padding` on all six
spatial faces, and each output spatial extent follows the convolution
arithmetic `(in + 2*padding - k_size) / s + 1` (the success condition
guarantees `k_size ≤ in + 2*padding`, so the truncated subtraction agrees with
the floor formula). -/
theorem C5_convblock_shape_formula (blk : Conv3dBlock) (P : BlockParams)
    (x t : Tensor5) (h : convBlockForward blk P x = some t) :
    (∃ xp, pad3d blk.pad_type blk.padding x = some xp ∧
        xp.D = x.D + 2 * blk.padding ∧ xp.H = x.H + 2 * blk.padding ∧
        xp.W = x.W + 2 * blk.padding) ∧
      blk.k_size ≤ x.D + 2 * blk.padding ∧
      t.D = (x.D + 2 * blk.padding - blk.k_size) / blk.s + 1 ∧
      t.H = (x.H + 2 * blk.padding - blk.k_size) / blk.s + 1 ∧
      t.W = (x.W + 2 * blk.padding - blk.k_size) / blk.s + 1 := by
  obtain ⟨hxp, hk, _, _, _, hD, hH, hW⟩ := convBlock_shape_spec h
  exact ⟨hxp, hk, hD, hH, hW⟩

/-- Witness for C5: a kernel-3, stride-2, padding-1 block on a 5×5×5 volume
gives spatial size `(5 + 2*1 - 3)/2 + 1 = 3`. -/
theorem C5_witness :
    ((convBlockForward (mkConv3dBlock 1 1 3 2 1 "none" "relu" "replicate") zeroBP
      (constTensor 1 1 5 5 5 0)).getD tensorDefault).D = 3 := by
  have h := C5_convblock_shape_formula
    (mkConv3dBlock 1 1 3 2 1 "none" "relu" "replicate") zeroBP
    (constTensor 1 1 5 5 5 0)
    ((convBlockForward (mkConv3dBlock 1 1 3 2 1 "none" "relu" "replicate") zeroBP
      (constTensor 1 1 5 5 5 0)).getD tensorDefault) rfl
  exact h.2.2.1

/-! ## Claim C9 -/

lemma real_tanh_lt_one (y : ℝ) : Real.tanh y < 1 := by
  rw [Real.tanh_eq_sinh_div_cosh, div_lt_one (Real.cosh_pos y)]
  exact Real.sinh_lt_cosh y

lemma real_neg_one_lt_tanh (y : ℝ) : -1 < Real.tanh y := by
  rw [Real.tanh_eq_sinh_div_cosh, lt_div_iff₀ (Real.cosh_pos y)]
  have h := Real.sinh_lt_cosh (-y)
  rw [Real.sinh_neg, Real.cosh_neg] at h
  linarith

/-- Whatever the upsampling depth, a successful `decoderUpAndOut` run factors
through the terminal tanh-activated block. -/
lemma decoderUpAndOut_tanh_tail (oc : ℕ) :
    ∀ (n ch : ℕ) (Ps : ℕ → BlockParams) (wl : BlockParams) (x t : Tensor5),
      decoderUpAndOut oc ch n Ps wl x = some t →
      ∃ ch2 P2 z,
        convBlockForward (mkConv3dBlock ch2 oc 7 1 3 "none" "tanh" "replicate")
          P2 z = some t := by
  intro n
  induction n with
  | zero => intro ch Ps wl x t h; exact ⟨ch, wl, x, h⟩
  | succ n ih =>
      intro ch Ps wl x t h
      have h2 : (convBlockForward
          (mkConv3dBlock ch (ch / 2) 5 1 2 "ln" "relu" "replicate") (Ps 0)
          (upsampleNearest2 x)).bind
            (fun y => decoderUpAndOut oc (ch / 2) n (fun i => Ps (i + 1)) wl y) =
          some t := h
      cases hy : convBlockForward
          (mkConv3dBlock ch (ch / 2) 5 1 2 "ln" "relu" "replicate") (Ps 0)
          (upsampleNearest2 x) with
      | none => rw [hy] at h2; exact Option.noConfusion h2
      | some y =>
          rw [hy] at h2
          exact ih (ch / 2) (fun i => Ps (i + 1)) wl y t h2

/-- Every entry of the output of a tanh-terminated block is `Real.tanh` of
something. -/
lemma convBlock_tanh_bounds {a b2 : ℕ} {P : BlockParams} {x t : Tensor5}
    (h : convBlockForward (mkConv3dBlock a b2 7 1 3 "none" "tanh" "replicate")
      P x = some t) (i1 i2 i3 i4 i5 : ℕ) :
    -1 < t.data i1 i2 i3 i4 i5 ∧ t.data i1 i2 i3 i4 i5 < 1 := by
  have h2 : (pad3d "replicate" 3 x).bind
      (fun xp => (conv3d a b2 7 1 P.weight P.bias xp).bind
        fun xc => pure (tmap Real.tanh xc)) = some t := h
  cases hp : pad3d "replicate" 3 x with
  | none => rw [hp] at h2; exact Option.noConfusion h2
  | some xp =>
      rw [hp] at h2
      have h3 : (conv3d a b2 7 1 P.weight P.bias xp).bind
          (fun xc => pure (tmap Real.tanh xc)) = some t := h2
      cases hcv : conv3d a b2 7 1 P.weight P.bias xp with
      | none => rw [hcv] at h3; exact Option.noConfusion h3
      | some xc =>
          rw [hcv] at h3
          have h4 : tmap Real.tanh xc = t := by injection h3
          subst h4
          exact ⟨real_neg_one_lt_tanh _, real_tanh_lt_one _⟩

/-- Claim C9: whenever `Decoder.forward` returns a tensor, every entry of its
data lies strictly between -1 and 1, because the terminal block applies `tanh`
and no normalization after it. -/
theorem C9_decoder_output_range (bottom_dim n_res n_upsample style_dim
    out_channels : ℕ) (P : DecoderParams) (x t : Tensor5)
    (h : decoderForward bottom_dim n_res n_upsample style_dim out_channels P x =
      some t) (i1 i2 i3 i4 i5 : ℕ) :
    -1 < t.data i1 i2 i3 i4 i5 ∧ t.data i1 i2 i3 i4 i5 < 1 := by
  have h2 : (residualBlocksForward bottom_dim "adain" "relu" "replicate" n_res
      P.wres x).bind
        (fun y => decoderUpAndOut out_channels (bottom_dim * 2 ^ n_upsample)
          n_upsample P.wup P.wlast y) = some t := h
  cases hres : residualBlocksForward bottom_dim "adain" "relu" "replicate" n_res
      P.wres x with
  | none => rw [hres] at h2; exact Option.noConfusion h2
  | some y =>
      rw [hres] at h2
      obtain ⟨ch2, P2, z, hblk⟩ :=
        decoderUpAndOut_tanh_tail out_channels n_upsample
          (bottom_dim * 2 ^ n_upsample) P.wup P.wlast y t h2
      exact convBlock_tanh_bounds hblk i1 i2 i3 i4 i5

/-- Witness for C9: a minimal decoder (no residual blocks, no upsampling) run
on a 1×1×1×1×1 input succeeds and its entry is strictly inside (-1, 1). -/
theorem C9_witness :
    -1 < ((decoderForward 1 0 0 8 1 zeroDP
        (constTensor 1 1 1 1 1 0)).getD tensorDefault).data 0 0 0 0 0 ∧
      ((decoderForward 1 0 0 8 1 zeroDP
        (constTensor 1 1 1 1 1 0)).getD tensorDefault).data 0 0 0 0 0 < 1 :=
  C9_decoder_output_range 1 0 0 8 1 zeroDP (constTensor 1 1 1 1 1 0) _ rfl
    0 0 0 0 0

/-! ## Characterization of `MultiDiscriminator.forward` -/

/-- The `i`-th score map is the `i`-th tower applied to the input average-pooled
`i` times, and the `i`-th printed line is the pair (that score map's shape,
that pooled input's shape). -/
lemma multiForward_char (ic : ℕ) (cfg : MDParams) :
    ∀ (Ts : List TowerParams) (x : Tensor5) (os : List Tensor5)
      (tr : List (Shape5 × Shape5)),
      multiForward ic cfg Ts x = some (os, tr) →
      os.length = Ts.length ∧ tr.length = Ts.length ∧
      ∀ i T, Ts.get? i = some T →
        os.get? i = towerForward ic cfg T (avgPoolDownsample^[i] x) ∧
        tr.get? i = (towerForward ic cfg T (avgPoolDownsample^[i] x)).map
          (fun o => (o.toShape, (avgPoolDownsample^[i] x).toShape)) := by
  intro Ts
  induction Ts with
  | nil =>
      intro x os tr h
      have h2 : (([], []) : List Tensor5 × List (Shape5 × Shape5)) = (os, tr) := by
        injection h
      injection h2 with h3 h4
      subst h3
      subst h4
      refine ⟨rfl, rfl, ?_⟩
      intro i T hT
      exact absurd hT (by simp)
  | cons T0 Ts ih =>
      intro x os tr h
      have h2 : (towerForward ic cfg T0 x).bind (fun o =>
          (multiForward ic cfg Ts (avgPoolDownsample x)).bind fun rest =>
            pure (o :: rest.1, (o.toShape, x.toShape) :: rest.2)) =
          some (os, tr) := h
      cases ho : towerForward ic cfg T0 x with
      | none => rw [ho] at h2; exact Option.noConfusion h2
      | some o =>
          rw [ho] at h2
          have h3 : (multiForward ic cfg Ts (avgPoolDownsample x)).bind
              (fun rest => pure (o :: rest.1, (o.toShape, x.toShape) :: rest.2)) =
              some (os, tr) := h2
          cases hrest : multiForward ic cfg Ts (avgPoolDownsample x) with
          | none => rw [hrest] at h3; exact Option.noConfusion h3
          | some rest =>
              rw [hrest] at h3
              have h4 : (o :: rest.1, (o.toShape, x.toShape) :: rest.2) =
                  (os, tr) := by injection h3
              injection h4 with h5 h6
              subst h5
              subst h6
              obtain ⟨hl1, hl2, hidx⟩ := ih (avgPoolDownsample x) rest.1 rest.2 hrest
              refine ⟨by simp [hl1], by simp [hl2], ?_⟩
              intro i T hT
              cases i with
              | zero =>
                  have hTT : T0 = T := by injection hT
                  subst hTT
                  constructor
                  · show some o = towerForward ic cfg T0 (avgPoolDownsample^[0] x)
                    rw [Function.iterate_zero_apply]
                    exact ho.symm
                  · show some (o.toShape, x.toShape) =
                      (towerForward ic cfg T0 (avgPoolDownsample^[0] x)).map
                        (fun o2 => (o2.toShape, (avgPoolDownsample^[0] x).toShape))
                    rw [Function.iterate_zero_apply, ho]
                    rfl
              | succ i =>
                  obtain ⟨ha, hb⟩ := hidx i T hT
                  constructor
                  · show rest.1.get? i = _
                    rw [Function.iterate_succ_apply]
                    exact ha
                  · show rest.2.get? i = _
                    rw [Function.iterate_succ_apply]
                    exact hb

/-! ## Claim C4 -/

/-- Claim C4: `MultiDiscriminator.forward` returns exactly `num_scales` score
maps, the `i`-th computed by the `i`-th tower on the running input
average-pooled `i` times (kernel 3, stride 2, padding 1, padding excluded from
the averages, per `avgPoolDownsample`); and on the `(1,14,48,48,48)` input with
`n_layer=4`, `bottom_dim=32`, `num_scales=1` the single output has shape
`(1,1,3,3,3)`. -/
theorem C4_multiscale_outputs :
    (∀ (ic : ℕ) (cfg : MDParams) (Ws : ℕ → TowerParams) (x : Tensor5)
       (os : List Tensor5) (tr : List (Shape5 × Shape5)),
       multiForward ic cfg (mkDiscriminatorModels cfg Ws) x = some (os, tr) →
       os.length = cfg.num_scales ∧
       ∀ i T, (mkDiscriminatorModels cfg Ws).get? i = some T →
         os.get? i = towerForward ic cfg T (avgPoolDownsample^[i] x)) ∧
    (multiForward 14 mdCfg48 (mkDiscriminatorModels mdCfg48 fun _ => zeroTP)
        x48).map (fun r => r.1.map Tensor5.toShape) = some [(1, 1, 3, 3, 3)] := by
  constructor
  · intro ic cfg Ws x os tr h
    obtain ⟨hl, _, hidx⟩ := multiForward_char ic cfg _ x os tr h
    constructor
    · rw [hl]
      simp [mkDiscriminatorModels]
    · intro i T hT
      exact (hidx i T hT).1
  · rfl

/-- Witness for C4: the `__main__` configuration produces exactly
`num_scales = 1` score map. -/
theorem C4_witness :
    (((multiForward 14 mdCfg48 (mkDiscriminatorModels mdCfg48 fun _ => zeroTP)
      x48).getD ([], [])).1).length = 1 := by
  have h := C4_multiscale_outputs.1 14 mdCfg48 (fun _ => zeroTP) x48
    (((multiForward 14 mdCfg48 (mkDiscriminatorModels mdCfg48 fun _ => zeroTP)
      x48).getD ([], [])).1)
    (((multiForward 14 mdCfg48 (mkDiscriminatorModels mdCfg48 fun _ => zeroTP)
      x48).getD ([], [])).2) rfl
  exact h.1

/-! ## Claim C8 -/

/-- Counterexample to C8: on the `__main__` configuration and input, the
forward pass emits a non-empty print trace (one line: the score-map shape
`(1,1,3,3,3)` and the input shape `(1,14,48,48,48)`). -/
theorem C8_counterexample :
    (multiForward 14 mdCfg48 (mkDiscriminatorModels mdCfg48 fun _ => zeroTP)
      x48).map Prod.snd ≠ some [] := by
  have h : (multiForward 14 mdCfg48 (mkDiscriminatorModels mdCfg48 fun _ => zeroTP)
      x48).map Prod.snd = some [((1, 1, 3, 3, 3), (1, 14, 48, 48, 48))] := rfl
  rw [h]
  simp

/-- Claim C8 (amended): `MultiDiscriminator.forward` writes exactly one line
per scale to the output stream — the pair (that scale's output shape, the
running input's shape); apart from this print, the forward pass is a pure
function of its inputs. -/
theorem C8_print_per_scale :
    ∀ (ic : ℕ) (cfg : MDParams) (Ts : List TowerParams) (x : Tensor5)
      (os : List Tensor5) (tr : List (Shape5 × Shape5)),
      multiForward ic cfg Ts x = some (os, tr) →
      tr.length = Ts.length ∧
      ∀ i T, Ts.get? i = some T →
        tr.get? i = (towerForward ic cfg T (avgPoolDownsample^[i] x)).map
          (fun o => (o.toShape, (avgPoolDownsample^[i] x).toShape)) := by
  intro ic cfg Ts x os tr h
  obtain ⟨_, hl, hidx⟩ := multiForward_char ic cfg Ts x os tr h
  exact ⟨hl, fun i T hT => (hidx i T hT).2⟩

/-- Witness for C8 (amended): on the `__main__` configuration the trace has
exactly `num_scales = 1` entry. -/
theorem C8_witness :
    (((multiForward 14 mdCfg48 (mkDiscriminatorModels mdCfg48 fun _ => zeroTP)
      x48).getD ([], [])).2).length = 1 := by
  have h := C8_print_per_scale 14 mdCfg48
    (mkDiscriminatorModels mdCfg48 fun _ => zeroTP) x48
    (((multiForward 14 mdCfg48 (mkDiscriminatorModels mdCfg48 fun _ => zeroTP)
      x48).getD ([], [])).1)
    (((multiForward 14 mdCfg48 (mkDiscriminatorModels mdCfg48 fun _ => zeroTP)
      x48).getD ([], [])).2) rfl
  exact h.1

/-! ## Claim C10 -/

lemma list_sum_map_getD (f : Tensor5 → ℝ) :
    ∀ l : List Tensor5,
      (l.map f).sum = ∑ i ∈ Finset.range l.length, f (l.getD i tensorDefault) := by
  intro l
  induction l with
  | nil => simp
  | cons a l ih =>
      rw [List.map_cons, List.sum_cons, ih, List.length_cons,
        Finset.sum_range_succ']
      simp only [List.getD_cons_succ, List.getD_cons_zero]
      rw [add_comm]

/-- Claim C10: `compute_loss(x, gt)` is the sum over the `num_scales` scales
of the mean of `(score - gt)^2` over that scale's score map, where the `i`-th
score map is the `i`-th tower applied to the `i`-times-downsampled input. -/
theorem C10_compute_loss (ic : ℕ) (cfg : MDParams) (Ts : List TowerParams)
    (x : Tensor5) (gt : ℝ) (os : List Tensor5) (tr : List (Shape5 × Shape5))
    (h : multiForward ic cfg Ts x = some (os, tr)) :
    computeLoss ic cfg Ts x gt =
      some (∑ i ∈ Finset.range os.length,
        tmean (tmap (fun v => (v - gt) ^ 2) (os.getD i tensorDefault))) ∧
    os.length = Ts.length ∧
    ∀ i T, Ts.get? i = some T →
      os.get? i = towerForward ic cfg T (avgPoolDownsample^[i] x) := by
  obtain ⟨hl, _, hidx⟩ := multiForward_char ic cfg Ts x os tr h
  refine ⟨?_, hl, fun i T hT => (hidx i T hT).1⟩
  unfold computeLoss
  rw [h, Option.map_some', list_sum_map_getD]

/-- Witness for C10: the loss on the `__main__` configuration against target 1
is the single-scale mean-squared-error sum. -/
theorem C10_witness :
    computeLoss 14 mdCfg48 (mkDiscriminatorModels mdCfg48 fun _ => zeroTP) x48 1 =
      some (∑ i ∈ Finset.range 1,
        tmean (tmap (fun v => (v - 1) ^ 2)
          ((((multiForward 14 mdCfg48 (mkDiscriminatorModels mdCfg48
              fun _ => zeroTP) x48).getD ([], [])).1).getD i tensorDefault))) := by
  have h := C10_compute_loss 14 mdCfg48
    (mkDiscriminatorModels mdCfg48 fun _ => zeroTP) x48 1
    (((multiForward 14 mdCfg48 (mkDiscriminatorModels mdCfg48 fun _ => zeroTP)
      x48).getD ([], [])).1)
    (((multiForward 14 mdCfg48 (mkDiscriminatorModels mdCfg48 fun _ => zeroTP)
      x48).getD ([], [])).2) rfl
  exact h.1

/-! ## Claim C6 -/

/-- A kernel-3, stride-1, padding-1 replicate-padded block succeeds on every
nonempty input with matching channel count, and preserves all dimensions. -/
lemma convBlock_3_1_1_some (ch : ℕ) (norm act : String) (P : BlockParams)
    (x : Tensor5) (hc : x.C = ch) (hd : 1 ≤ x.D) (hh : 1 ≤ x.H)
    (hw : 1 ≤ x.W) :
    ∃ y, convBlockForward (mkConv3dBlock ch ch 3 1 1 norm act "replicate") P x =
        some y ∧
      y.B = x.B ∧ y.C = ch ∧ y.D = x.D ∧ y.H = x.H ∧ y.W = x.W := by
  have hpad : pad3d "replicate" 1 x = some (padReplicate 1 x) :=
    pad3d_replicate_some hd hh hw
  have hC2 : (padReplicate 1 x).C = ch := hc
  have h3D : (3 : ℕ) ≤ (padReplicate 1 x).D := by show 3 ≤ x.D + 2 * 1; omega
  have h3H : (3 : ℕ) ≤ (padReplicate 1 x).H := by show 3 ≤ x.H + 2 * 1; omega
  have h3W : (3 : ℕ) ≤ (padReplicate 1 x).W := by show 3 ≤ x.W + 2 * 1; omega
  obtain ⟨y0, hcv⟩ := @conv3d_some_of ch ch 3 1 P.weight P.bias
    (padReplicate 1 x) hC2 (le_refl 1) h3D h3H h3W
  obtain ⟨_, _, _, _, _, hB0, hC0, hD0, hH0, hW0⟩ := conv3d_some hcv
  have hD0b : y0.D = (x.D + 2 * 1 - 3) / 1 + 1 := hD0
  have hH0b : y0.H = (x.H + 2 * 1 - 3) / 1 + 1 := hH0
  have hW0b : y0.W = (x.W + 2 * 1 - 3) / 1 + 1 := hW0
  refine ⟨applyActOpt P (mkConv3dBlock ch ch 3 1 1 norm act "replicate").activation
      (applyNormOpt P (mkConv3dBlock ch ch 3 1 1 norm act "replicate").norm y0),
    ?_, ?_, ?_, ?_, ?_, ?_⟩
  · have hfwd : convBlockForward (mkConv3dBlock ch ch 3 1 1 norm act "replicate")
        P x =
        (pad3d "replicate" 1 x).bind (fun xp =>
          (conv3d ch ch 3 1 P.weight P.bias xp).bind fun xc =>
            pure (applyActOpt P
              (mkConv3dBlock ch ch 3 1 1 norm act "replicate").activation
              (applyNormOpt P
                (mkConv3dBlock ch ch 3 1 1 norm act "replicate").norm xc))) := rfl
    rw [hfwd, hpad, Option.some_bind, hcv, Option.some_bind]
    rfl
  all_goals
    obtain ⟨hB, hC, hD, hH, hW⟩ := toShape_ext.mp
      (((applyActOpt_toShape P _ _).trans (applyNormOpt_toShape P _ y0)) :
        (applyActOpt P (mkConv3dBlock ch ch 3 1 1 norm act "replicate").activation
          (applyNormOpt P (mkConv3dBlock ch ch 3 1 1 norm act "replicate").norm
            y0)).toShape = y0.toShape)
  · rw [hB, hB0]; rfl
  · rw [hC, hC0]
  · rw [hD, hD0b, Nat.div_one]; omega
  · rw [hH, hH0b, Nat.div_one]; omega
  · rw [hW, hW0b, Nat.div_one]; omega

/-- Claim C6: on every nonempty input whose channel count matches the
configured width, `ResidualBlock.forward` succeeds, equals
`input + ConvBlock2(ConvBlock1(input))` where ConvBlock1 carries the
configured activation and ConvBlock2 carries no activation, and its output
shape equals the input shape exactly. -/
theorem C6_residual_block (ch : ℕ) (norm act : String) (P : ResParams)
    (x : Tensor5) (hc : x.C = ch) (hd : 1 ≤ x.D) (hh : 1 ≤ x.H)
    (hw : 1 ≤ x.W) :
    ∃ t y z,
      residualBlockForward ch norm act "replicate" P x = some t ∧
      convBlockForward (mkConv3dBlock ch ch 3 1 1 norm act "replicate") P.p1 x =
        some y ∧
      convBlockForward (mkConv3dBlock ch ch 3 1 1 norm "none" "replicate") P.p2 y =
        some z ∧
      tadd x z = some t ∧
      t.toShape = x.toShape ∧
      (mkConv3dBlock ch ch 3 1 1 norm "none" "replicate").activation = none := by
  obtain ⟨y, hy, hyB, hyC, hyD, hyH, hyW⟩ :=
    convBlock_3_1_1_some ch norm act P.p1 x hc hd hh hw
  obtain ⟨z, hz, hzB, hzC, hzD, hzH, hzW⟩ :=
    convBlock_3_1_1_some ch norm "none" P.p2 y hyC (by omega) (by omega) (by omega)
  have hsh : x.toShape = z.toShape := by
    rw [toShape_ext]
    exact ⟨(hzB.trans hyB).symm, by rw [hzC, hc], (hzD.trans hyD).symm,
      (hzH.trans hyH).symm, (hzW.trans hyW).symm⟩
  have htadd : tadd x z = some { x with data := (fun b c d h2 w2 =>
      x.data b c d h2 w2 + z.data b c d h2 w2) } := by
    unfold tadd
    rw [if_pos hsh]
  refine ⟨_, y, z, ?_, hy, hz, htadd, rfl, rfl⟩
  have hfwd : residualBlockForward ch norm act "replicate" P x =
      (convBlockForward (mkConv3dBlock ch ch 3 1 1 norm act "replicate") P.p1
        x).bind (fun y2 =>
          (convBlockForward (mkConv3dBlock ch ch 3 1 1 norm "none" "replicate")
            P.p2 y2).bind fun z2 => tadd x z2) := rfl
  rw [hfwd, hy, Option.some_bind, hz, Option.some_bind, htadd]

/-- Witness for C6: an instance-normalized residual block on a `(1,2,2,2,2)`
input succeeds with output shape equal to the input shape. -/
theorem C6_witness :
    ((residualBlockForward 2 "in" "relu" "replicate" zeroRP
      (constTensor 1 2 2 2 2 0)).getD tensorDefault).toShape =
      (constTensor 1 2 2 2 2 0).toShape := by
  obtain ⟨t, y, z, ht, _, _, _, hts, _⟩ :=
    C6_residual_block 2 "in" "relu" zeroRP (constTensor 1 2 2 2 2 0) rfl
      (by decide) (by decide) (by decide)
  rw [ht]
  exact hts

/-! ## Claim C7 -/

lemma downsampleBlocks_B (norm activ pt : String) :
    ∀ (n dim : ℕ) (Ps : ℕ → BlockParams) (x y : Tensor5),
      downsampleBlocks norm activ pt dim n Ps x = some y → y.B = x.B := by
  intro n
  induction n with
  | zero =>
      intro dim Ps x y h
      have h2 : some x = some y := h
      injection h2 with h3
      rw [← h3]
  | succ n ih =>
      intro dim Ps x y h
      have h2 : (convBlockForward (mkConv3dBlock dim (2 * dim) 4 2 1 norm activ pt)
          (Ps 0) x).bind
            (fun y2 => downsampleBlocks norm activ pt (2 * dim) n
              (fun i => Ps (i + 1)) y2) = some y := h
      cases hy : convBlockForward (mkConv3dBlock dim (2 * dim) 4 2 1 norm activ pt)
          (Ps 0) x with
      | none => rw [hy] at h2; exact Option.noConfusion h2
      | some y1 =>
          rw [hy] at h2
          have hB1 : y1.B = x.B := (convBlock_shape_spec hy).2.2.2.1
          have hB2 := ih (2 * dim) (fun i => Ps (i + 1)) y1 y h2
          rw [hB2, hB1]

lemma keepBlocks_B (dim : ℕ) :
    ∀ (n : ℕ) (Ps : ℕ → BlockParams) (x y : Tensor5),
      keepBlocks dim n Ps x = some y → y.B = x.B := by
  intro n
  induction n with
  | zero =>
      intro Ps x y h
      have h2 : some x = some y := h
      injection h2 with h3
      rw [← h3]
  | succ n ih =>
      intro Ps x y h
      have h2 : (convBlockForward (mkConv3dBlock dim dim 4 2 1 "none" "relu"
          "replicate") (Ps 0) x).bind
            (fun y2 => keepBlocks dim n (fun i => Ps (i + 1)) y2) = some y := h
      cases hy : convBlockForward (mkConv3dBlock dim dim 4 2 1 "none" "relu"
          "replicate") (Ps 0) x with
      | none => rw [hy] at h2; exact Option.noConfusion h2
      | some y1 =>
          rw [hy] at h2
          have hB1 : y1.B = x.B := (convBlock_shape_spec hy).2.2.2.1
          have hB2 := ih (fun i => Ps (i + 1)) y1 y h2
          rw [hB2, hB1]

/-- Claim C7: whenever `StyleEncoder.forward` returns a tensor, its shape is
`(B, style_dim, 1, 1, 1)` — the adaptive average pool collapses all spatial
extents to 1 whatever the input spatial size, and the final 1×1×1 convolution
keeps them at 1. -/
theorem C7_style_encoder_shape (in_channels n_downsample style_dim bottom_dim : ℕ)
    (P : StyleEncoderParams) (x t : Tensor5)
    (h : styleEncoderForward in_channels n_downsample style_dim bottom_dim P x =
      some t) :
    t.toShape = (x.B, style_dim, 1, 1, 1) := by
  have h2 : (convBlockForward (mkConv3dBlock in_channels bottom_dim 7 1 3 "none"
      "relu" "replicate") P.w0 x).bind (fun x1 =>
        (downsampleBlocks "none" "relu" "replicate" bottom_dim 2 P.wdouble
          x1).bind fun x2 =>
          (keepBlocks (4 * bottom_dim) (n_downsample - 2) P.wkeep x2).bind
            fun x3 => conv3d (4 * bottom_dim) style_dim 1 1 P.wlast.weight
              P.wlast.bias (adaptiveAvgPool1 x3)) = some t := h
  cases h1 : convBlockForward (mkConv3dBlock in_channels bottom_dim 7 1 3 "none"
      "relu" "replicate") P.w0 x with
  | none => rw [h1] at h2; exact Option.noConfusion h2
  | some x1 =>
      rw [h1] at h2
      have h3 : (downsampleBlocks "none" "relu" "replicate" bottom_dim 2
          P.wdouble x1).bind (fun x2 =>
            (keepBlocks (4 * bottom_dim) (n_downsample - 2) P.wkeep x2).bind
              fun x3 => conv3d (4 * bottom_dim) style_dim 1 1 P.wlast.weight
                P.wlast.bias (adaptiveAvgPool1 x3)) = some t := h2
      cases hdown : downsampleBlocks "none" "relu" "replicate" bottom_dim 2
          P.wdouble x1 with
      | none => rw [hdown] at h3; exact Option.noConfusion h3
      | some x2 =>
          rw [hdown] at h3
          have h4 : (keepBlocks (4 * bottom_dim) (n_downsample - 2) P.wkeep
              x2).bind (fun x3 => conv3d (4 * bottom_dim) style_dim 1 1
                P.wlast.weight P.wlast.bias (adaptiveAvgPool1 x3)) = some t := h3
          cases hkeep : keepBlocks (4 * bottom_dim) (n_downsample - 2) P.wkeep
              x2 with
          | none => rw [hkeep] at h4; exact Option.noConfusion h4
          | some x3 =>
              rw [hkeep] at h4
              obtain ⟨_, _, _, _, _, hB, hC, hD, hH, hW⟩ := conv3d_some h4
              have hB3 : t.B = x3.B := hB
              have hD1 : t.D = (1 - 1) / 1 + 1 := hD
              have hH1 : t.H = (1 - 1) / 1 + 1 := hH
              have hW1 : t.W = (1 - 1) / 1 + 1 := hW
              have hBx : x3.B = x.B := by
                rw [keepBlocks_B _ _ _ _ _ hkeep,
                  downsampleBlocks_B _ _ _ _ _ _ _ _ hdown,
                  (convBlock_shape_spec h1).2.2.2.1]
              show (t.B, t.C, t.D, t.H, t.W) = (x.B, style_dim, 1, 1, 1)
              rw [hB3, hBx, hC, hD1, hH1, hW1]

/-- Witness for C7: the default `StyleEncoder()` on the `(1,14,48,48,48)`
input of the `__main__` block yields shape `(1, 8, 1, 1, 1)`. -/
theorem C7_witness :
    ((styleEncoderForward 14 4 8 32 zeroSEP x48).getD tensorDefault).toShape =
      (1, 8, 1, 1, 1) :=
  C7_style_encoder_shape 14 4 8 32 zeroSEP x48 _ rfl

/-! ## Claims C2 and C3 -/

lemma mk_activation_none (ic oc k s p : ℕ) (norm : String) {act : String}
    (pt : String) (h1 : act ≠ "relu") (h2 : act ≠ "lrelu") (h3 : act ≠ "prelu")
    (h4 : act ≠ "selu") (h5 : act ≠ "tanh") :
    (mkConv3dBlock ic oc k s p norm act pt).activation = none := by
  show (if act = "relu" then some ActKind.relu
    else if act = "lrelu" then some ActKind.lrelu
    else if act = "prelu" then some ActKind.prelu
    else if act = "selu" then some ActKind.selu
    else if act = "tanh" then some ActKind.tanh
    else none) = none
  rw [if_neg h1, if_neg h2, if_neg h3, if_neg h4, if_neg h5]

lemma mk_norm_none (ic oc k s p : ℕ) {norm : String} (act pt : String)
    (h1 : norm ≠ "bn") (h2 : norm ≠ "in") :
    (mkConv3dBlock ic oc k s p norm act pt).norm = none := by
  show (if norm = "bn" then some NormKind.bn
    else if norm = "in" then some NormKind.inst
    else none) = none
  rw [if_neg h1, if_neg h2]

/-- Counterexample to C2: a `Conv_3d_Block` with the unrecognized kinds
`norm="adain"`, `activation="gelu"` constructs without any error — both
members resolve to `None` — and its forward pass runs to completion. -/
theorem C2_counterexample :
    (mkConv3dBlock 1 1 3 1 1 "adain" "gelu" "replicate").norm = none ∧
    (mkConv3dBlock 1 1 3 1 1 "adain" "gelu" "replicate").activation = none ∧
    (convBlockForward (mkConv3dBlock 1 1 3 1 1 "adain" "gelu" "replicate")
      zeroBP (constTensor 1 1 3 3 3 0)).isSome = true :=
  ⟨rfl, rfl, rfl⟩

/-- Claim C2 (amended): construction never fails — an unrecognized
normalization or activation kind is silently resolved to `None` (the step is
skipped), and an unrecognized padding mode is accepted at construction and
only raises when `forward` reaches `F.pad`. -/
theorem C2_no_construction_error (ic oc k s p : ℕ) (norm act pt : String)
    (hn1 : norm ≠ "bn") (hn2 : norm ≠ "in") (ha1 : act ≠ "relu")
    (ha2 : act ≠ "lrelu") (ha3 : act ≠ "prelu") (ha4 : act ≠ "selu")
    (ha5 : act ≠ "tanh") :
    (mkConv3dBlock ic oc k s p norm act pt).norm = none ∧
    (mkConv3dBlock ic oc k s p norm act pt).activation = none ∧
    (pt ≠ "replicate" → pt ≠ "reflect" → pt ≠ "circular" → pt ≠ "constant" →
      ∀ (P : BlockParams) (x : Tensor5),
        convBlockForward (mkConv3dBlock ic oc k s p norm act pt) P x = none) := by
  refine ⟨mk_norm_none ic oc k s p act pt hn1 hn2,
    mk_activation_none ic oc k s p norm pt ha1 ha2 ha3 ha4 ha5, ?_⟩
  intro hp1 hp2 hp3 hp4 P x
  have hpad : pad3d pt p x = none := by
    unfold pad3d
    rw [if_neg hp1, if_neg hp2, if_neg hp3, if_neg hp4]
  have hfwd : convBlockForward (mkConv3dBlock ic oc k s p norm act pt) P x =
      (pad3d pt p x).bind (fun xp =>
        (conv3d ic oc k s P.weight P.bias xp).bind fun xc =>
          pure (applyActOpt P (mkConv3dBlock ic oc k s p norm act pt).activation
            (applyNormOpt P (mkConv3dBlock ic oc k s p norm act pt).norm xc))) :=
    rfl
  rw [hfwd, hpad]
  rfl

/-- Witness for C2 (amended): `norm="ln"`, `activation="gelu"`,
`pad_type="zeros"` — construction succeeds with both members `None`, and the
forward pass fails only at padding time. -/
theorem C2_witness :
    (mkConv3dBlock 1 2 3 1 1 "ln" "gelu" "zeros").norm = none ∧
    (mkConv3dBlock 1 2 3 1 1 "ln" "gelu" "zeros").activation = none ∧
    convBlockForward (mkConv3dBlock 1 2 3 1 1 "ln" "gelu" "zeros") zeroBP
      (constTensor 1 1 3 3 3 0) = none := by
  have h := C2_no_construction_error 1 2 3 1 1 "ln" "gelu" "zeros"
    (by decide) (by decide) (by decide) (by decide) (by decide) (by decide)
    (by decide)
  exact ⟨h.1, h.2.1, h.2.2 (by decide) (by decide) (by decide) (by decide)
    zeroBP (constTensor 1 1 3 3 3 0)⟩

/-- The decoder's residual stack, built with `norm="adain"`, computes exactly
what it would compute with no normalization at all. -/
lemma residualBlocks_adain_eq (ch : ℕ) :
    ∀ (n : ℕ) (Ps : ℕ → ResParams) (x : Tensor5),
      residualBlocksForward ch "adain" "relu" "replicate" n Ps x =
      residualBlocksForward ch "none" "relu" "replicate" n Ps x := by
  intro n
  induction n with
  | zero => intro Ps x; rfl
  | succ n ih =>
      intro Ps x
      have h1 : residualBlocksForward ch "adain" "relu" "replicate" (n + 1) Ps x =
          (residualBlockForward ch "adain" "relu" "replicate" (Ps 0) x).bind
            (fun y => residualBlocksForward ch "adain" "relu" "replicate" n
              (fun i => Ps (i + 1)) y) := rfl
      have h2 : residualBlocksForward ch "none" "relu" "replicate" (n + 1) Ps x =
          (residualBlockForward ch "none" "relu" "replicate" (Ps 0) x).bind
            (fun y => residualBlocksForward ch "none" "relu" "replicate" n
              (fun i => Ps (i + 1)) y) := rfl
      have hblk : residualBlockForward ch "adain" "relu" "replicate" (Ps 0) x =
          residualBlockForward ch "none" "relu" "replicate" (Ps 0) x := rfl
      rw [h1, h2, hblk]
      cases residualBlockForward ch "none" "relu" "replicate" (Ps 0) x with
      | none => rfl
      | some y => exact ih (fun i => Ps (i + 1)) y

/-- Claim C3: every activation string outside the five recognized kinds and
every norm string outside `bn`/`in` yields a block identical to one built with
both kinds `"none"`; in particular the decoder's `"adain"` residual stack
computes exactly the unnormalized stack, and its `"ln"` upsampling blocks carry
no normalization member — no adaptive normalization is ever applied. -/
theorem C3_silent_fallthrough (ic oc k s p : ℕ) (norm act pt : String)
    (ha : act ∉ ["relu", "lrelu", "prelu", "selu", "tanh"])
    (hn : norm ∉ ["bn", "in"]) :
    mkConv3dBlock ic oc k s p norm act pt =
      mkConv3dBlock ic oc k s p "none" "none" pt ∧
    (∀ (ch n : ℕ) (Ps : ℕ → ResParams) (x : Tensor5),
      residualBlocksForward ch "adain" "relu" "replicate" n Ps x =
      residualBlocksForward ch "none" "relu" "replicate" n Ps x) ∧
    (∀ ch oc2 : ℕ,
      (mkConv3dBlock ch oc2 5 1 2 "ln" "relu" "replicate").norm = none) := by
  simp only [List.mem_cons, not_or] at ha hn
  obtain ⟨ha1, ha2, ha3, ha4, ha5, -⟩ := ha
  obtain ⟨hn1, hn2, -⟩ := hn
  refine ⟨?_, fun ch n Ps x => residualBlocks_adain_eq ch n Ps x,
    fun ch oc2 => mk_norm_none ch oc2 5 1 2 "relu" "replicate" (by decide)
      (by decide)⟩
  unfold mkConv3dBlock
  simp only [Conv3dBlock.mk.injEq]
  refine ⟨trivial, trivial, trivial, trivial, trivial, trivial, ?_, ?_⟩
  · rw [if_neg ha1, if_neg ha2, if_neg ha3, if_neg ha4, if_neg ha5]
    rfl
  · rw [if_neg hn1, if_neg hn2]
    rfl

/-- Witness for C3: `activation="gelu"`, `norm="adain"` produce exactly the
block of kind `"none"`, the one-block `"adain"` residual stack equals the
unnormalized one, and a decoder upsampling block carries no norm member. -/
theorem C3_witness :
    mkConv3dBlock 1 1 3 1 1 "adain" "gelu" "replicate" =
      mkConv3dBlock 1 1 3 1 1 "none" "none" "replicate" ∧
    residualBlocksForward 2 "adain" "relu" "replicate" 1 (fun _ => zeroRP)
        (constTensor 1 2 2 2 2 0) =
      residualBlocksForward 2 "none" "relu" "replicate" 1 (fun _ => zeroRP)
        (constTensor 1 2 2 2 2 0) ∧
    (mkConv3dBlock 4 2 5 1 2 "ln" "relu" "replicate").norm = none := by
  have h := C3_silent_fallthrough 1 1 3 1 1 "adain" "gelu" "replicate"
    (by decide) (by decide)
  exact ⟨h.1, h.2.1 2 1 (fun _ => zeroRP) (constTensor 1 2 2 2 2 0), h.2.2 4 2⟩

/-! ## Claim C1 -/

/-- Claim C1 fails on the code: with the default round-trip configuration
(`n_downsample = n_upsample = 2`, matching `bottom_dim = 32`), the content
encoder succeeds on a `(1,14,4,4,4)` volume — producing the
`(1, 32·2², 1, 1, 1)` content map — but the decoder then raises a channel
mismatch: its residual stack was built at `bottom_dim = 32` input channels
(the computed `channels = bottom_dim*(1<<n_upsample)` on the preceding source
line is not used there), so the composition never returns an output tensor. -/
theorem C1_roundtrip_channel_mismatch :
    (contentEncoderForward 14 2 32 4 zeroCEP (constTensor 1 14 4 4 4 0)).map
      Tensor5.toShape = some (1, 128, 1, 1, 1) ∧
    (contentEncoderForward 14 2 32 4 zeroCEP (constTensor 1 14 4 4 4 0)).bind
      (decoderForward 32 3 2 8 14 zeroDP) = none :=
  ⟨rfl, rfl⟩

end
